import Mathlib

/-!
Verification of the sprawl order-replication service.

The definitions below are a shallow embedding of the Go sources:
* the protobuf schema (src/unnamed/part_000) gives the data model;
* `OrderService` (src/unnamed/part_001) is embedded with its `Storage` and
  `P2p` collaborators registered (the nil-collaborator branches of the Go
  code never fire in that configuration);
* the `P2p` transport (src/unnamed/part_002) is embedded as explicit state
  transitions: goroutines spawned by `Send`/`Subscribe` become entries of
  task lists, and a scheduler step relation delivers their effects.

Side effects of a service call are recorded as an `Event` trace listed in
program order, so "X happens before Y" in a claim becomes "the X event
precedes the Y event in the trace".

Protobuf serialization is an external library; it is modelled by an
executable codec (`encodeOrder`/`decodeOrder`, `encodeWireMessage`/
`decodeWireMessage`) over `Bytes`.  Decoding returns `Option`, `none`
standing for a `proto.Unmarshal` error.  The claims only use that decoding
can fail and that the service treats the raw bytes opaquely, never a
property of the concrete protobuf wire format.
-/

namespace Sprawl

/-- Byte strings (`[]byte` in Go), modelled as lists of naturals. -/
abbrev Bytes := List Nat

/-- `State` enumeration of the protobuf schema: `OPEN = 0`, `LOCKED = 1`. -/
inductive State where
  | OPEN
  | LOCKED
deriving DecidableEq

/-- `Operation` enumeration of the protobuf schema:
`CREATE = 0`, `DELETE = 1`, `LOCK = 2`, `UNLOCK = 3`. -/
inductive Operation where
  | CREATE
  | DELETE
  | LOCK
  | UNLOCK
deriving DecidableEq

/-- `pb.Order`.  `created` is the protobuf timestamp, collapsed to one
natural number; `price` is the `float` field carried as its opaque bit
pattern (no arithmetic is ever performed on it by the service). -/
structure Order where
  id : Bytes
  created : Nat
  asset : String
  counterAsset : String
  amount : Nat
  price : Nat
  state : State
deriving DecidableEq

/-- `pb.WireMessage`. -/
structure WireMessage where
  channelID : Bytes
  operation : Operation
  data : Bytes
deriving DecidableEq

/-- `pb.CreateRequest`. -/
structure CreateRequest where
  channelID : Bytes
  asset : String
  counterAsset : String
  amount : Nat
  price : Nat
deriving DecidableEq

/-- `pb.OrderSpecificRequest`. -/
structure OrderSpecificRequest where
  orderID : Bytes
  channelID : Bytes
deriving DecidableEq

/-- `pb.Error`, the error message embedded in responses. -/
structure ErrorMsg where
  code : String
  message : String
deriving DecidableEq

/-- `pb.CreateResponse`. -/
structure CreateResponse where
  createdOrder : Option Order
  error : Option ErrorMsg
deriving DecidableEq

/-- `pb.GenericResponse`. -/
structure GenericResponse where
  error : Option ErrorMsg
deriving DecidableEq

/-- The Go `error` values produced by `OrderService`; each constructor is
one `errors.E(errors.Op(...))` wrapping site of src/unnamed/part_001.
(The `DELETE` branch of `Receive` wraps its storage error with the label
"Put order" as well — a literal copy of the source.) -/
inductive Err where
  | unmarshalWireMessage
  | unmarshalOrder
  | putOrder
  | deleteOrder
  | getOrderFailed
deriving DecidableEq

/- ## Codec: model of the protobuf marshaling library -/

/-- Length-prefixed encoding of a byte field. -/
def encodeBytes (b : Bytes) : Bytes := b.length :: b

/-- Decode a length-prefixed byte field, returning the field and the
remaining input; `none` models an unmarshal error. -/
def decodeBytes : Bytes → Option (Bytes × Bytes)
  | [] => none
  | n :: rest => if n ≤ rest.length then some (rest.take n, rest.drop n) else none

/-- Encoding of a string field: its character codes, length-prefixed. -/
def encodeString (s : String) : Bytes := encodeBytes (s.data.map Char.toNat)

/-- Decode a string field. -/
def decodeString (l : Bytes) : Option (String × Bytes) :=
  match decodeBytes l with
  | some (cs, rest) => some (⟨cs.map Char.ofNat⟩, rest)
  | none => none

/-- Wire tag of a `State`. -/
def stateToNat : State → Nat
  | .OPEN => 0
  | .LOCKED => 1

/-- Parse a `State` tag. -/
def natToState : Nat → Option State
  | 0 => some .OPEN
  | 1 => some .LOCKED
  | _ => none

/-- Wire tag of an `Operation`. -/
def operationToNat : Operation → Nat
  | .CREATE => 0
  | .DELETE => 1
  | .LOCK => 2
  | .UNLOCK => 3

/-- Parse an `Operation` tag. -/
def natToOperation : Nat → Option Operation
  | 0 => some .CREATE
  | 1 => some .DELETE
  | 2 => some .LOCK
  | 3 => some .UNLOCK
  | _ => none

/-- `proto.Marshal` for `Order`. -/
def encodeOrder (o : Order) : Bytes :=
  encodeBytes o.id ++ [o.created] ++ encodeString o.asset ++
    encodeString o.counterAsset ++ [o.amount, o.price, stateToNat o.state]

/-- `proto.Unmarshal` for `Order`; `none` models an unmarshal error. -/
def decodeOrder (l : Bytes) : Option Order :=
  match decodeBytes l with
  | some (id, r1) =>
    match r1 with
    | created :: r2 =>
      match decodeString r2 with
      | some (asset, r3) =>
        match decodeString r3 with
        | some (counterAsset, r4) =>
          match r4 with
          | [amount, price, stTag] =>
            match natToState stTag with
            | some state => some ⟨id, created, asset, counterAsset, amount, price, state⟩
            | none => none
          | _ => none
        | none => none
      | none => none
    | [] => none
  | none => none

/-- `proto.Marshal` for `WireMessage`. -/
def encodeWireMessage (m : WireMessage) : Bytes :=
  encodeBytes m.channelID ++ [operationToNat m.operation] ++ encodeBytes m.data

/-- `proto.Unmarshal` for `WireMessage`; `none` models an unmarshal error. -/
def decodeWireMessage (l : Bytes) : Option WireMessage :=
  match decodeBytes l with
  | some (cid, r1) =>
    match r1 with
    | opTag :: r2 =>
      match natToOperation opTag with
      | some operation =>
        match decodeBytes r2 with
        | some (data, []) => some ⟨cid, operation, data⟩
        | _ => none
      | none => none
    | [] => none
  | none => none

/- ## Association lists: model of the key-value storage map -/

/-- Look a key up in an association list. -/
def lookupKey {β : Type} : List (Bytes × β) → Bytes → Option β
  | [], _ => none
  | (k, v) :: rest, key => if k = key then some v else lookupKey rest key

/-- Insert or overwrite a key in an association list. -/
def putKey {β : Type} : List (Bytes × β) → Bytes → β → List (Bytes × β)
  | [], key, val => [(key, val)]
  | (k, v) :: rest, key, val =>
    if k = key then (k, val) :: rest else (k, v) :: putKey rest key val

/-- Remove a key from an association list. -/
def eraseKey {β : Type} : List (Bytes × β) → Bytes → List (Bytes × β)
  | [], _ => []
  | (k, v) :: rest, key =>
    if k = key then eraseKey rest key else (k, v) :: eraseKey rest key

/-- The storage engine (`interfaces.Storage`, a LevelDB wrapper): its
key-value contents plus fault-injection flags making `Put`/`Delete` fail,
so that the storage-error paths of the service are reachable in proofs. -/
structure Storage where
  data : List (Bytes × Bytes)
  putFails : Bool
  deleteFails : Bool
deriving DecidableEq

/-- `Storage.Get`: LevelDB returns an error (not-found) for a missing key;
`none` is that error. -/
def Storage.get (s : Storage) (key : Bytes) : Option Bytes :=
  lookupKey s.data key

/-- `Storage.Put`; the boolean is `true` when the engine reported an error,
in which case the contents are unchanged. -/
def Storage.put (s : Storage) (key val : Bytes) : Storage × Bool :=
  if s.putFails then (s, true)
  else ({ s with data := putKey s.data key val }, false)

/-- `Storage.Delete`; deleting an absent key is not an error in LevelDB.
The boolean is `true` when the engine reported an error. -/
def Storage.del (s : Storage) (key : Bytes) : Storage × Bool :=
  if s.deleteFails then (s, true)
  else ({ s with data := eraseKey s.data key }, false)

/-- Side effects of a service call, listed in program order. -/
inductive Event where
  | getEv (key : Bytes)
  | putEv (key value : Bytes)
  | deleteEv (key : Bytes)
  | sendEv (message : WireMessage)
deriving DecidableEq

/-- Modelled from the spec: `interfaces.OrderPrefix` is declared in the
repository's `interfaces` package, which is not among the source files;
the spec gives the storage key scheme as `"order:" + id`, so the
order-namespace key head is the ASCII bytes of `"order:"`. -/
def orderPrefixBytes : Bytes := "order:".data.map Char.toNat

/-- `getOrderStorageKey` (src/unnamed/part_001): the order-namespace head
concatenated with the raw order id bytes. -/
def getOrderStorageKey (orderID : Bytes) : Bytes := orderPrefixBytes ++ orderID

/-- Stand-in for the HMAC-SHA256 digest computed in `Create` over the
serialized request and the creation timestamp (with the hardcoded secret
"mysecret").  The claims use only that the digest is a deterministic
function of the request and the timestamp; the hash itself is an external
crypto primitive. -/
def hmacSum (req : CreateRequest) (now : Nat) : Bytes :=
  encodeBytes req.channelID ++ encodeString req.asset ++
    encodeString req.counterAsset ++ [req.amount, req.price, now]

/-- Result of `Create`: its two Go return values (response, error), the
storage left behind, and the trace of side effects in program order. -/
structure CreateResult where
  response : CreateResponse
  err : Option Err
  storage : Storage
  events : List Event
deriving DecidableEq

/-- Result of `Delete`/`Lock`/`Unlock`: the `*pb.GenericResponse` (or
`none` when the Go code returns a nil response), the error, the storage
left behind, and the trace of side effects in program order. -/
structure GenericResult where
  response : Option GenericResponse
  err : Option Err
  storage : Storage
  events : List Event
deriving DecidableEq

namespace OrderService

/-- `OrderService.Create` (src/unnamed/part_001): derives the id, builds
the `OPEN` order, marshals it, puts it under the order storage key, then
hands the `CREATE` wire message to `P2p.Send` (an asynchronous enqueue —
see `P2p.Send` below).  A put failure becomes the returned error; the
constructed order is returned in the response regardless. -/
def Create (st : Storage) (req : CreateRequest) (now : Nat) : CreateResult :=
  let id := hmacSum req now
  let order : Order :=
    { id := id, created := now, asset := req.asset, counterAsset := req.counterAsset,
      amount := req.amount, price := req.price, state := .OPEN }
  let orderInBytes := encodeOrder order
  let putRes := st.put (getOrderStorageKey id) orderInBytes
  let wireMessage : WireMessage :=
    { channelID := req.channelID, operation := .CREATE, data := orderInBytes }
  { response := { createdOrder := some order, error := none }
    err := if putRes.2 then some .putOrder else none
    storage := putRes.1
    events := [.putEv (getOrderStorageKey id) orderInBytes, .sendEv wireMessage] }

/-- `OrderService.Receive` (src/unnamed/part_001): unmarshals the
`WireMessage`, then the embedded `Order`, failing closed on either; its
`switch` has cases only for `CREATE` (put the raw `data` under the order's
key) and `DELETE` (delete the key) — `LOCK` and `UNLOCK` fall through with
no storage mutation and a nil error. -/
def Receive (st : Storage) (buf : Bytes) : Option Err × Storage :=
  match decodeWireMessage buf with
  | none => (some .unmarshalWireMessage, st)
  | some wireMessage =>
    match decodeOrder wireMessage.data with
    | none => (some .unmarshalOrder, st)
    | some order =>
      match wireMessage.operation with
      | .CREATE =>
        let putRes := st.put (getOrderStorageKey order.id) wireMessage.data
        ((if putRes.2 then some .putOrder else none), putRes.1)
      | .DELETE =>
        let delRes := st.del (getOrderStorageKey order.id)
        ((if delRes.2 then some .putOrder else none), delRes.1)
      | .LOCK => (none, st)
      | .UNLOCK => (none, st)

/-- The zero `pb.Order`, which is what `proto.Unmarshal` leaves behind
when it fails on garbage input. -/
def defaultOrder : Order :=
  { id := [], created := 0, asset := "", counterAsset := "", amount := 0,
    price := 0, state := .OPEN }

/-- `OrderService.GetOrder` (src/unnamed/part_001): gets the stored bytes
(propagating a read error), then unmarshals them *discarding the unmarshal
error*, so a successful read always returns a nil error. -/
def GetOrder (st : Storage) (req : OrderSpecificRequest) : Option Order × Option Err :=
  match st.get (getOrderStorageKey req.orderID) with
  | none => (none, some .getOrderFailed)
  | some data => (some ((decodeOrder data).getD defaultOrder), none)

/-- `OrderService.Delete` (src/unnamed/part_001): reads the stored order
(returning a nil response and the error when the read fails), hands a
`DELETE` wire message carrying the stored bytes to `P2p.Send`, and only
then deletes the storage key. -/
def Delete (st : Storage) (req : OrderSpecificRequest) : GenericResult :=
  match st.get (getOrderStorageKey req.orderID) with
  | none =>
    { response := none, err := some .deleteOrder, storage := st,
      events := [.getEv (getOrderStorageKey req.orderID)] }
  | some orderInBytes =>
    let wireMessage : WireMessage :=
      { channelID := req.channelID, operation := .DELETE, data := orderInBytes }
    let delRes := st.del (getOrderStorageKey req.orderID)
    { response := some { error := none }
      err := if delRes.2 then some .deleteOrder else none
      storage := delRes.1
      events := [.getEv (getOrderStorageKey req.orderID), .sendEv wireMessage,
                 .deleteEv (getOrderStorageKey req.orderID)] }

/-- `OrderService.Lock` (src/unnamed/part_001): the body is only the
comment `// TODO: Add Order locking logic` followed by returning an empty
response — no storage access, no broadcast, nil error. -/
def Lock (st : Storage) (_req : OrderSpecificRequest) : GenericResult :=
  { response := some { error := none }, err := none, storage := st, events := [] }

/-- `OrderService.Unlock` (src/unnamed/part_001): the body is only the
comment `// TODO: Add Order unlocking logic` followed by returning an
empty response — no storage access, no broadcast, nil error. -/
def Unlock (st : Storage) (_req : OrderSpecificRequest) : GenericResult :=
  { response := some { error := none }, err := none, storage := st, events := [] }

end OrderService

namespace P2p

/-- Outbound side of the transport (src/unnamed/part_002).  `pending`
holds, in spawn order, the goroutines spawned by `Send` that are each
blocked writing one message to the unbuffered `p2p.input` channel;
`queue` holds the messages already taken off `p2p.input` by
`listenForInput`, in arrival order (the outbound queue). -/
structure SendState where
  pending : List WireMessage
  queue : List WireMessage
deriving DecidableEq

/-- The initial outbound state: nothing spawned, nothing queued. -/
def initSendState : SendState := { pending := [], queue := [] }

/-- `P2p.Send` (src/unnamed/part_002): spawns a goroutine that will write
the message to `p2p.input` and returns immediately — the call itself never
touches the queue. -/
def Send (st : SendState) (m : WireMessage) : SendState :=
  { st with pending := st.pending ++ [m] }

/-- One scheduler step: the i-th pending goroutine (any of them — the Go
runtime fixes no order between goroutines spawned by distinct `Send`
calls) completes its channel write and `listenForInput` appends its
message to the queue. -/
def deliver (st : SendState) (i : Nat) : SendState :=
  match st.pending[i]? with
  | some m => { pending := st.pending.eraseIdx i, queue := st.queue ++ [m] }
  | none => st

/-- A run of the outbound side: `Sum.inl m` is a `Send m` call, `Sum.inr i`
is a scheduler step delivering the i-th pending goroutine's message. -/
def runSend : SendState → List (WireMessage ⊕ Nat) → SendState
  | st, [] => st
  | st, (Sum.inl m) :: rest => runSend (Send st m) rest
  | st, (Sum.inr i) :: rest => runSend (deliver st i) rest

/-- The messages passed to `Send` during a run, in call order. -/
def sendsOf : List (WireMessage ⊕ Nat) → List WireMessage
  | [] => []
  | (Sum.inl m) :: rest => m :: sendsOf rest
  | (Sum.inr _) :: rest => sendsOf rest

/-- Subscription side of the transport (src/unnamed/part_002).
`subscriptions` is the Go map `channel id → quit channel`, quit channels
being named by tokens; `tasks` lists the live reader goroutines, each with
the channel it reads and the quit token it watches; `nextToken` supplies
fresh tokens. -/
structure SubState where
  subscriptions : List (Bytes × Nat)
  tasks : List (Bytes × Nat)
  nextToken : Nat
deriving DecidableEq

/-- The initial subscription state. -/
def initSubState : SubState := { subscriptions := [], tasks := [], nextToken := 0 }

/-- `P2p.Subscribe` (src/unnamed/part_002): unconditionally joins the
pubsub topic, makes a fresh quit channel, overwrites the map entry for the
channel id, and spawns a new reader goroutine watching that quit channel —
there is no check whether the channel is already subscribed. -/
def Subscribe (st : SubState) (channelId : Bytes) : SubState :=
  { subscriptions := putKey st.subscriptions channelId st.nextToken
    tasks := st.tasks ++ [(channelId, st.nextToken)]
    nextToken := st.nextToken + 1 }

/-- `P2p.Unsubscribe` (src/unnamed/part_002): sends `true` on
`subscriptions[id]`; the reader goroutine watching that quit channel then
deletes the map entry and returns.  When no entry exists the Go send is on
a nil channel and blocks forever (a documented caller precondition),
modelled as no state change. -/
def Unsubscribe (st : SubState) (channelId : Bytes) : SubState :=
  match lookupKey st.subscriptions channelId with
  | some tok =>
    { st with subscriptions := eraseKey st.subscriptions channelId
              tasks := st.tasks.filter (fun t => !(t.2 == tok)) }
  | none => st

/-- Number of live reader goroutines for a channel id. -/
def readersFor (st : SubState) (channelId : Bytes) : Nat :=
  (st.tasks.filter (fun t => t.1 == channelId)).length

/-- A run of the subscription side: `Sum.inl ch` is `Subscribe ch`,
`Sum.inr ch` is `Unsubscribe ch`. -/
def runSub : SubState → List (Bytes ⊕ Bytes) → SubState
  | st, [] => st
  | st, (Sum.inl ch) :: rest => runSub (Subscribe st ch) rest
  | st, (Sum.inr ch) :: rest => runSub (Unsubscribe st ch) rest

end P2p

/- ## Helper lemmas and sample values -/

theorem lookupKey_putKey_self {β : Type} (d : List (Bytes × β)) (k : Bytes) (v : β) :
    lookupKey (putKey d k v) k = some v := by
  induction d with
  | nil => simp [putKey, lookupKey]
  | cons p rest ih =>
    rcases p with ⟨k1, v1⟩
    by_cases h : k1 = k
    · simp [putKey, lookupKey, h]
    · simp [putKey, lookupKey, h, ih]

theorem putKey_putKey_self {β : Type} (d : List (Bytes × β)) (k : Bytes) (v : β) :
    putKey (putKey d k v) k v = putKey d k v := by
  induction d with
  | nil => simp [putKey]
  | cons p rest ih =>
    rcases p with ⟨k1, v1⟩
    by_cases h : k1 = k
    · simp [putKey, h]
    · simp [putKey, h, ih]

/-- A sample stored order used by concrete witnesses. -/
def sampleOrder : Order := ⟨[1], 0, "", "", 0, 0, .OPEN⟩

/-- A storage holding `sampleOrder` under its order key, no faults. -/
def sampleStorage : Storage :=
  ⟨[(getOrderStorageKey [1], encodeOrder sampleOrder)], false, false⟩

/-- An empty fault-free storage. -/
def emptyStorage : Storage := ⟨[], false, false⟩

/-- A storage holding `sampleOrder` whose engine fails puts and deletes. -/
def failStorage : Storage :=
  ⟨[(getOrderStorageKey [1], encodeOrder sampleOrder)], true, true⟩

/-- A storage holding undecodable bytes under an order key. -/
def garbageStorage : Storage := ⟨[(getOrderStorageKey [1], [7])], false, false⟩

/-- A sample order-specific request for `sampleOrder`. -/
def sampleReq : OrderSpecificRequest := ⟨[1], [2]⟩

/-- A sample create request. -/
def sampleCreateReq : CreateRequest := ⟨[2], "", "", 0, 0⟩

/-- A run of `Lock`/`Unlock` API calls (`true` = `Lock`, `false` =
`Unlock`), threading the storage through. -/
def runLockUnlock : Storage → List (Bool × OrderSpecificRequest) → Storage
  | st, [] => st
  | st, (true, req) :: rest => runLockUnlock (OrderService.Lock st req).storage rest
  | st, (false, req) :: rest => runLockUnlock (OrderService.Unlock st req).storage rest

/- ## Claim theorems -/

/-- Claim C1.  What the code actually does: for every well-formed wire
message whose operation is `LOCK` or `UNLOCK`, `Receive` returns a nil
error and leaves the storage completely unchanged — also when the embedded
order id IS present in local storage, where the claim expects the stored
order's `state` to become `LOCKED`/`OPEN`.  The `switch` in `Receive`
(src/unnamed/part_001) has no `LOCK`/`UNLOCK` cases at all. -/
theorem receive_lock_unlock_noop (st : Storage) (buf : Bytes) (wm : WireMessage) (o : Order)
    (h1 : decodeWireMessage buf = some wm) (h2 : decodeOrder wm.data = some o)
    (h3 : wm.operation = .LOCK ∨ wm.operation = .UNLOCK) :
    OrderService.Receive st buf = (none, st) := by
  rcases h3 with h | h <;> simp only [OrderService.Receive, h1, h2, h]

/-- Witness for C1: a `LOCK` message for an order stored with state `OPEN`
leaves the storage byte-identical (the state is not set to `LOCKED`). -/
theorem receive_lock_unlock_noop_witness :
    decodeOrder (encodeOrder sampleOrder) = some sampleOrder ∧
    sampleOrder.state = State.OPEN ∧
    OrderService.Receive sampleStorage
        (encodeWireMessage ⟨[2], .LOCK, encodeOrder sampleOrder⟩) = (none, sampleStorage) :=
  ⟨by decide, by decide,
   receive_lock_unlock_noop sampleStorage (encodeWireMessage ⟨[2], .LOCK, encodeOrder sampleOrder⟩)
     ⟨[2], .LOCK, encodeOrder sampleOrder⟩ sampleOrder (by decide) (by decide) (Or.inl rfl)⟩

/-- Claim C2.  What the code actually does: `Lock` and `Unlock`
(src/unnamed/part_001) are TODO stubs — for every storage and request they
return an empty response with nil error, touch no storage, and emit no
side effect (no broadcast); consequently any sequence of `Lock`/`Unlock`
calls leaves the storage exactly as it was, never `LOCKED`. -/
theorem lock_unlock_stub_noop (st : Storage) (req : OrderSpecificRequest) :
    OrderService.Lock st req = ⟨some ⟨none⟩, none, st, []⟩ ∧
    OrderService.Unlock st req = ⟨some ⟨none⟩, none, st, []⟩ ∧
    ∀ calls : List (Bool × OrderSpecificRequest), runLockUnlock st calls = st := by
  refine ⟨rfl, rfl, ?_⟩
  intro calls
  induction calls generalizing st with
  | nil => rfl
  | cons c rest ih =>
    rcases c with ⟨b, r⟩
    cases b <;> exact ih _

/-- Counterexample to claim C3: subscribing twice to the same channel id
leaves two live reader tasks for it, so the at-most-one-reader invariant
fails (`Subscribe` in src/unnamed/part_002 unconditionally spawns a new
reader goroutine). -/
theorem subscribe_invariant_counterexample :
    ¬ ∀ (acts : List (Bytes ⊕ Bytes)) (ch : Bytes),
        P2p.readersFor (P2p.runSub P2p.initSubState acts) ch ≤ 1 := by
  intro h
  exact absurd (h [Sum.inl [0], Sum.inl [0]] [0]) (by decide)

/-- Claim C3 as amended: every `Subscribe` call — including one for an
already-subscribed channel — spawns one more reader task for that channel
and overwrites the channel's quit-signal entry with a fresh one, so the
number of reader tasks per channel is not bounded by one. -/
theorem subscribe_spawns_new_reader (st : P2p.SubState) (ch : Bytes) :
    P2p.readersFor (P2p.Subscribe st ch) ch = P2p.readersFor st ch + 1 ∧
    lookupKey (P2p.Subscribe st ch).subscriptions ch = some st.nextToken := by
  constructor
  · simp [P2p.readersFor, P2p.Subscribe, List.filter_append]
  · simp [P2p.Subscribe, lookupKey_putKey_self]

/-- Claim C4: `Create` builds an order with state `OPEN`, commits its
serialized form under the order-prefixed storage key (the put event
precedes the send event in the trace, i.e. the commit happens before the
broadcast is handed to `P2p.Send`, itself an asynchronous enqueue), and
when the commit fails the error is returned while the constructed order is
still in the response. -/
theorem create_commits_then_broadcasts (st : Storage) (req : CreateRequest) (now : Nat) :
    let order : Order :=
      { id := hmacSum req now, created := now, asset := req.asset,
        counterAsset := req.counterAsset, amount := req.amount, price := req.price,
        state := State.OPEN }
    (OrderService.Create st req now).response.createdOrder = some order ∧
    (OrderService.Create st req now).events =
      [Event.putEv (getOrderStorageKey (hmacSum req now)) (encodeOrder order),
       Event.sendEv { channelID := req.channelID, operation := Operation.CREATE,
                      data := encodeOrder order }] ∧
    (OrderService.Create st req now).err = (if st.putFails then some Err.putOrder else none) ∧
    (OrderService.Create st req now).storage =
      (if st.putFails then st
       else { st with data := putKey st.data (getOrderStorageKey (hmacSum req now))
                                (encodeOrder order) }) := by
  intro order
  cases hp : st.putFails <;>
    simp [OrderService.Create, Storage.put, hp, order]

/-- Claim C5: `Delete` first reads the stored order; when it is absent the
call returns a nil response and an error, with no broadcast and no
removal; when present, the `DELETE` wire message carrying the stored bytes
is handed to `P2p.Send` before the storage key is deleted (send event
precedes delete event in the trace), and storage removal failure still
leaves the message sent. -/
theorem delete_broadcasts_before_removal (st : Storage) (req : OrderSpecificRequest) :
    (st.get (getOrderStorageKey req.orderID) = none →
      OrderService.Delete st req =
        ⟨none, some Err.deleteOrder, st, [Event.getEv (getOrderStorageKey req.orderID)]⟩) ∧
    (∀ orderInBytes, st.get (getOrderStorageKey req.orderID) = some orderInBytes →
      OrderService.Delete st req =
        ⟨some ⟨none⟩,
         (if st.deleteFails then some Err.deleteOrder else none),
         (if st.deleteFails then st
          else { st with data := eraseKey st.data (getOrderStorageKey req.orderID) }),
         [Event.getEv (getOrderStorageKey req.orderID),
          Event.sendEv ⟨req.channelID, Operation.DELETE, orderInBytes⟩,
          Event.deleteEv (getOrderStorageKey req.orderID)]⟩) := by
  constructor
  · intro h
    simp only [OrderService.Delete, h]
  · intro b hb
    cases hd : st.deleteFails <;>
      simp [OrderService.Delete, Storage.del, hb, hd]

/-- Witness for C5: both cases at concrete inputs — an existing order is
broadcast before removal, an absent order yields an error and no events
beyond the read. -/
theorem delete_broadcasts_before_removal_witness :
    Storage.get sampleStorage (getOrderStorageKey sampleReq.orderID) =
      some (encodeOrder sampleOrder) ∧
    OrderService.Delete sampleStorage sampleReq =
      ⟨some ⟨none⟩, none, ⟨[], false, false⟩,
       [Event.getEv (getOrderStorageKey sampleReq.orderID),
        Event.sendEv ⟨sampleReq.channelID, Operation.DELETE, encodeOrder sampleOrder⟩,
        Event.deleteEv (getOrderStorageKey sampleReq.orderID)]⟩ ∧
    Storage.get emptyStorage (getOrderStorageKey sampleReq.orderID) = none ∧
    OrderService.Delete emptyStorage sampleReq =
      ⟨none, some Err.deleteOrder, emptyStorage,
       [Event.getEv (getOrderStorageKey sampleReq.orderID)]⟩ :=
  ⟨by decide,
   (delete_broadcasts_before_removal sampleStorage sampleReq).2
     (encodeOrder sampleOrder) (by decide),
   by decide,
   (delete_broadcasts_before_removal emptyStorage sampleReq).1 (by decide)⟩

/-- Claim C6: `Receive` fails closed — a buffer that does not decode to a
`WireMessage`, or a wire message whose `data` does not decode to an
`Order`, yields an error and leaves the storage untouched. -/
theorem receive_fail_closed (st : Storage) (buf : Bytes) :
    (decodeWireMessage buf = none →
      OrderService.Receive st buf = (some Err.unmarshalWireMessage, st)) ∧
    (∀ wm, decodeWireMessage buf = some wm → decodeOrder wm.data = none →
      OrderService.Receive st buf = (some Err.unmarshalOrder, st)) := by
  constructor
  · intro h
    simp only [OrderService.Receive, h]
  · intro wm h1 h2
    simp only [OrderService.Receive, h1, h2]

/-- Witness for C6: a malformed buffer and a wire message with malformed
embedded order data both error without mutating a concrete storage. -/
theorem receive_fail_closed_witness :
    decodeWireMessage [5] = none ∧
    OrderService.Receive emptyStorage [5] = (some Err.unmarshalWireMessage, emptyStorage) ∧
    decodeWireMessage (encodeWireMessage ⟨[2], Operation.CREATE, [7]⟩) =
      some ⟨[2], Operation.CREATE, [7]⟩ ∧
    decodeOrder [7] = none ∧
    OrderService.Receive emptyStorage (encodeWireMessage ⟨[2], Operation.CREATE, [7]⟩) =
      (some Err.unmarshalOrder, emptyStorage) :=
  ⟨by decide,
   (receive_fail_closed emptyStorage [5]).1 (by decide),
   by decide, by decide,
   (receive_fail_closed emptyStorage (encodeWireMessage ⟨[2], Operation.CREATE, [7]⟩)).2
     ⟨[2], Operation.CREATE, [7]⟩ (by decide) (by decide)⟩

/-- Claim C7: replaying the same well-formed `CREATE` wire message through
`Receive` n ≥ 1 times leaves the storage in the same state as applying it
exactly once (the upsert is last-write-wins, hence idempotent). -/
theorem receive_create_idempotent (buf : Bytes) (wm : WireMessage) (o : Order)
    (h1 : decodeWireMessage buf = some wm) (h2 : wm.operation = Operation.CREATE)
    (h3 : decodeOrder wm.data = some o) (st : Storage) (n : Nat) (hn : 1 ≤ n) :
    (fun s => (OrderService.Receive s buf).2)^[n] st = (OrderService.Receive st buf).2 := by
  have hr : ∀ s : Storage, OrderService.Receive s buf =
      ((if (s.put (getOrderStorageKey o.id) wm.data).2 then some Err.putOrder else none),
       (s.put (getOrderStorageKey o.id) wm.data).1) := by
    intro s
    simp only [OrderService.Receive, h1, h3, h2]
  have hfix : ∀ s : Storage,
      (OrderService.Receive ((OrderService.Receive s buf).2) buf).2 =
        (OrderService.Receive s buf).2 := by
    intro s
    rw [hr s, hr ((if (s.put (getOrderStorageKey o.id) wm.data).2 then some Err.putOrder
                   else none),
                  (s.put (getOrderStorageKey o.id) wm.data).1).2]
    by_cases hp : s.putFails
    · simp [Storage.put, hp]
    · simp [Storage.put, hp, putKey_putKey_self]
  obtain ⟨m, rfl⟩ : ∃ m, n = m + 1 := ⟨n - 1, (Nat.succ_pred_eq_of_pos hn).symm⟩
  rw [Function.iterate_succ_apply]
  exact Function.iterate_fixed (hfix st) m

/-- Witness for C7: replaying a concrete `CREATE` message three times
equals applying it once on the empty storage. -/
theorem receive_create_idempotent_witness :
    decodeWireMessage (encodeWireMessage ⟨[2], Operation.CREATE, encodeOrder sampleOrder⟩) =
      some ⟨[2], Operation.CREATE, encodeOrder sampleOrder⟩ ∧
    (1 : Nat) ≤ 3 ∧
    (fun s => (OrderService.Receive s
        (encodeWireMessage ⟨[2], Operation.CREATE, encodeOrder sampleOrder⟩)).2)^[3] emptyStorage =
      (OrderService.Receive emptyStorage
        (encodeWireMessage ⟨[2], Operation.CREATE, encodeOrder sampleOrder⟩)).2 :=
  ⟨by decide, by decide,
   receive_create_idempotent (encodeWireMessage ⟨[2], Operation.CREATE, encodeOrder sampleOrder⟩)
     ⟨[2], Operation.CREATE, encodeOrder sampleOrder⟩ sampleOrder
     (by decide) rfl (by decide) emptyStorage 3 (by decide)⟩

/-- Counterexample to claim C8: `Send` spawns one goroutine per call to
write to the unbuffered input channel, and the Go runtime fixes no order
between distinct goroutines, so a valid schedule lets a later `Send`'s
message enter the outbound queue first.  FIFO would mean the queue is
always a prefix of the `Send`-call order; the run below (send m1, send m2,
deliver the second spawned goroutine, deliver the first) ends with the
queue in reversed order. -/
theorem send_fifo_counterexample :
    ¬ ∀ acts : List (WireMessage ⊕ Nat),
        (P2p.runSend P2p.initSendState acts).queue <+: P2p.sendsOf acts := by
  intro h
  exact absurd
    (h [Sum.inl ⟨[], Operation.CREATE, []⟩, Sum.inl ⟨[], Operation.DELETE, []⟩,
        Sum.inr 1, Sum.inr 0])
    (by decide)

/-- Claim C8 as amended: `Send` returns immediately without blocking on
network I/O — the call itself never touches the outbound queue, it only
spawns one more delivery task holding the message — but the order in which
messages enter the outbound queue is decided by the scheduler, not by the
`Send` call order. -/
theorem send_returns_immediately (st : P2p.SendState) (m : WireMessage) :
    (P2p.Send st m).queue = st.queue ∧ (P2p.Send st m).pending = st.pending ++ [m] :=
  ⟨rfl, rfl⟩

/-- Claim C9: whenever the storage read succeeds, `GetOrder` returns a nil
error — the result of unmarshaling the stored bytes is never checked, so
undecodable bytes yield the zero-valued order instead of an error. -/
theorem getOrder_ignores_unmarshal_error (st : Storage) (req : OrderSpecificRequest)
    (data : Bytes) (h : st.get (getOrderStorageKey req.orderID) = some data) :
    OrderService.GetOrder st req =
      (some ((decodeOrder data).getD OrderService.defaultOrder), none) := by
  simp only [OrderService.GetOrder, h]

/-- Witness for C9: a storage whose stored bytes do not decode to an
`Order` still makes `GetOrder` return a nil error (and the zero order). -/
theorem getOrder_ignores_unmarshal_error_witness :
    Storage.get garbageStorage (getOrderStorageKey sampleReq.orderID) = some [7] ∧
    decodeOrder [7] = none ∧
    OrderService.GetOrder garbageStorage sampleReq =
      (some ((decodeOrder [7]).getD OrderService.defaultOrder), none) :=
  ⟨by decide, by decide,
   getOrder_ignores_unmarshal_error garbageStorage sampleReq [7] (by decide)⟩

/-- Claim C10: the `Error` field embedded in the responses of `Create` and
`Delete` is the literal `nil` on every path that returns a response, even
when the separate Go error return is non-nil; failures surface only
through the error return. -/
theorem response_error_field_always_nil (st : Storage) (req : CreateRequest) (now : Nat)
    (oreq : OrderSpecificRequest) :
    (OrderService.Create st req now).response.error = none ∧
    (∀ r, (OrderService.Delete st oreq).response = some r → r.error = none) := by
  constructor
  · rfl
  · intro r hr
    unfold OrderService.Delete at hr
    cases hg : st.get (getOrderStorageKey oreq.orderID) with
    | none => rw [hg] at hr; simp at hr
    | some b =>
      rw [hg] at hr
      simp only [Option.some.injEq] at hr
      subst hr
      rfl

/-- Witness for C10: with a faulty storage engine both `Create` and
`Delete` return non-nil Go errors while their responses carry a nil
`Error` field. -/
theorem response_error_field_always_nil_witness :
    (OrderService.Create failStorage sampleCreateReq 0).err = some Err.putOrder ∧
    (OrderService.Create failStorage sampleCreateReq 0).response.error = none ∧
    (OrderService.Delete failStorage sampleReq).err = some Err.deleteOrder ∧
    (OrderService.Delete failStorage sampleReq).response = some ⟨none⟩ ∧
    (⟨none⟩ : GenericResponse).error = none :=
  ⟨by decide,
   (response_error_field_always_nil failStorage sampleCreateReq 0 sampleReq).1,
   by decide, by decide,
   (response_error_field_always_nil failStorage sampleCreateReq 0 sampleReq).2
     ⟨none⟩ (by decide)⟩

end Sprawl
